import Mathlib

/-!
Verification development for the Filipina passport-form overlay engine
(`fill_passport_form.py` and `field_config.py`).

The applicant record is modelled as a JSON-like tree, Python dictionary
access and method calls are modelled with their raising behaviour
(`AttributeError` for a method on a non-mapping, `KeyError` for a missing
dict subscript), and the PDF page is modelled as the list of text stamps
placed on it.  The external rendering library is treated as a capability
that places a glyph at a coordinate, per the specification.
-/

namespace Passport

/-- Json values: the shape of the applicant record (`data` in the source). -/
inductive Json where
  | str (s : String)
  | bool (b : Bool)
  | num (n : Int)
  | null
  | arr (xs : List Json)
  | obj (fields : List (String × Json))

/-- Python exceptions that the source code can raise. -/
inductive PyErr where
  | attributeError
  | keyError (k : String)
deriving DecidableEq

/-- Association-list lookup, modelling a Python dict keyed by strings
(first match; the source tables have no duplicate keys). -/
def assq {α : Type} (k : String) : List (String × α) → Option α
  | [] => none
  | (k', v) :: rest => if k = k' then some v else assq k rest

/-- Python `s.lower()` on a string: character-wise lowercasing (the source
only lowercases ASCII enumeration values). -/
def strLower (s : String) : String := ⟨s.data.map Char.toLower⟩

/-- Python `s.upper()` on a string (used only for the `"N/A"` sentinel test). -/
def strUpper (s : String) : String := ⟨s.data.map Char.toUpper⟩

/-- Python `s.strip()`: drop whitespace from both ends. -/
def strTrim (s : String) : String :=
  ⟨((s.data.dropWhile Char.isWhitespace).reverse.dropWhile Char.isWhitespace).reverse⟩

/-- Python `s.replace(a, b)` for one-character pattern and replacement,
the only form the source uses (`.replace(" ", "_")`). -/
def replaceChar (a b : Char) (s : String) : String :=
  ⟨s.data.map (fun c => if c = a then b else c)⟩

/-- Splitting loop for `splitOnChar`. -/
def splitOnCharAux (sep : Char) : List Char → List Char → List String
  | [], acc => [⟨acc.reverse⟩]
  | c :: cs, acc =>
    if c = sep then ⟨acc.reverse⟩ :: splitOnCharAux sep cs []
    else splitOnCharAux sep cs (c :: acc)

/-- Python `s.split(sep)` for a one-character separator, the only form the
source uses (`path.split(".")`); `"".split(".") = [""]`. -/
def splitOnChar (sep : Char) (s : String) : List String :=
  splitOnCharAux sep s.data []

/-- Python `sep.join(parts)`. -/
def joinWith (sep : String) : List String → String
  | [] => ""
  | [x] => x
  | x :: rest => x ++ sep ++ joinWith sep rest

/-- Python truthiness of a value (`if value:`): empty string, `False`, `0`,
`None`, empty list and empty dict are falsy, everything else truthy. -/
def truthy : Json → Bool
  | .str s => s != ""
  | .bool b => b
  | .num n => n != 0
  | .null => false
  | .arr [] => false
  | .arr (_ :: _) => true
  | .obj [] => false
  | .obj (_ :: _) => true

/-- Python `value.get(key, default)`: returns the entry or the default on a
dict, raises `AttributeError` on any non-dict value. -/
def pyGet (v : Json) (k : String) (dflt : Json) : Except PyErr Json :=
  match v with
  | .obj fs => .ok ((assq k fs).getD dflt)
  | _ => .error .attributeError

/-- Python `value.lower()`: lowercases a string, raises `AttributeError`
on any non-string value. -/
def pyLower (v : Json) : Except PyErr String :=
  match v with
  | .str s => .ok (strLower s)
  | _ => .error .attributeError

/-- Python `table[key]` subscript on a dict: raises `KeyError` when the key
is missing. -/
def pySubscript {α : Type} (tbl : List (String × α)) (k : String) : Except PyErr α :=
  match assq k tbl with
  | some v => .ok v
  | none => .error (.keyError k)

/-- Python `repr` of a value, as used by `str` on dict entries.  A quote
character is `Char.ofNat 39`. -/
def pyQuote : String := String.singleton (Char.ofNat 39)

mutual

/-- Python `repr(value)` for the values of our Json model. -/
def pyRepr : Json → String
  | .str s => pyQuote ++ s ++ pyQuote
  | .bool true => "True"
  | .bool false => "False"
  | .num n => toString n
  | .null => "None"
  | .arr xs => "[" ++ pyReprList xs ++ "]"
  | .obj fs => "\x7b" ++ pyReprFields fs ++ "\x7d"

/-- Comma-separated `repr` of list elements. -/
def pyReprList : List Json → String
  | [] => ""
  | [v] => pyRepr v
  | v :: rest => pyRepr v ++ ", " ++ pyReprList rest

/-- Comma-separated `repr(k): repr(v)` of dict entries. -/
def pyReprFields : List (String × Json) → String
  | [] => ""
  | [(k, v)] => pyQuote ++ k ++ pyQuote ++ ": " ++ pyRepr v
  | (k, v) :: rest => pyQuote ++ k ++ pyQuote ++ ": " ++ pyRepr v ++ ", " ++ pyReprFields rest

end

/-- Python `str(value)`: the textual coercion applied by `fill_text_fields`. -/
def pyStr : Json → String
  | .str s => s
  | v => pyRepr v

/-- Boolean success test for an `Except` computation. -/
def exceptIsOk {ε α : Type} : Except ε α → Bool
  | .ok _ => true
  | .error _ => false

-- ===== field_config.py =====

/-- Font name constant (`FONT_NAME = "helv"`). -/
def FONT_NAME : String := "helv"

/-- Default text size (`FONT_SIZE = 9`). -/
def FONT_SIZE : Nat := 9

/-- Checkbox glyph (`CHECKBOX_CHAR = "X"`). -/
def CHECKBOX_CHAR : String := "X"

/-- Checkbox glyph size (`CHECKBOX_FONT_SIZE = 10`). -/
def CHECKBOX_FONT_SIZE : Nat := 10

/-- Coordinate table from `field_config.py` (`FIELD_COORDINATES`). -/
def FIELD_COORDINATES : List (String × Int × Int) := [
  ("checkbox_adult", 33, 152),
  ("checkbox_minor", 82, 152),
  ("last_name", 35, 180),
  ("first_name", 315, 180),
  ("middle_name", 35, 214),
  ("place_of_birth", 315, 214),
  ("dob_day", 45, 253),
  ("dob_month", 100, 253),
  ("dob_year", 165, 253),
  ("checkbox_male", 407, 254),
  ("checkbox_female", 447, 254),
  ("national_id", 380, 270),
  ("checkbox_single", 110, 303),
  ("checkbox_married", 182, 303),
  ("checkbox_widow", 259, 303),
  ("checkbox_legally_separated", 342, 303),
  ("checkbox_annulled", 454, 303),
  ("present_address", 92, 318),
  ("contact_no", 75, 333),
  ("email", 335, 333),
  ("spouse_name", 90, 348),
  ("spouse_citizenship", 355, 348),
  ("father_name", 86, 362),
  ("father_citizenship", 351, 362),
  ("mother_maiden_name", 115, 376),
  ("mother_citizenship", 353, 376),
  ("checkbox_birth", 132, 395),
  ("checkbox_election", 189, 395),
  ("checkbox_naturalization", 254, 395),
  ("checkbox_ra9225", 337, 395),
  ("checkbox_others_citizenship", 409, 395),
  ("others_citizenship_text", 455, 394),
  ("checkbox_foreign_citizenship_yes", 170, 416),
  ("checkbox_foreign_citizenship_no", 193, 416),
  ("foreign_citizenship_country", 145, 424),
  ("checkbox_foreign_mode_birth", 95, 435),
  ("checkbox_foreign_mode_naturalization", 123, 435),
  ("checkbox_foreign_mode_others", 177, 435),
  ("foreign_mode_others_text", 220, 433),
  ("checkbox_military_yes", 409, 413),
  ("checkbox_military_no", 438, 413),
  ("military_country", 400, 421),
  ("checkbox_renounced_yes", 436, 439),
  ("checkbox_renounced_no", 465, 439),
  ("checkbox_foreign_passport_yes", 166, 459),
  ("checkbox_foreign_passport_no", 194, 459),
  ("foreign_passport_country", 145, 467),
  ("checkbox_ph_passport_yes", 439, 454),
  ("checkbox_ph_passport_no", 468, 454),
  ("ph_passport_number", 415, 462),
  ("ph_passport_date_of_issue", 340, 472),
  ("ph_passport_place_of_issue", 470, 472),
  ("accompanied_by", 115, 633),
  ("minor_relationship", 155, 642),
  ("accompanying_mobile", 170, 652),
  ("emergency_name", 420, 633),
  ("emergency_mobile", 340, 642),
  ("emergency_relationship", 480, 642),
  ("emergency_address", 365, 652)]

/-- Checkbox value table for the applicant-category group. -/
def applicantCategoryTbl : List (String × String) := [
  ("adult", "checkbox_adult"),
  ("minor", "checkbox_minor")]

/-- Checkbox value table for the sex group. -/
def sexTbl : List (String × String) := [
  ("male", "checkbox_male"),
  ("female", "checkbox_female")]

/-- Checkbox value table for the civil-status group. -/
def civilStatusTbl : List (String × String) := [
  ("single", "checkbox_single"),
  ("married", "checkbox_married"),
  ("widow", "checkbox_widow"),
  ("widower", "checkbox_widow"),
  ("legally_separated", "checkbox_legally_separated"),
  ("annulled", "checkbox_annulled")]

/-- Checkbox value table for the citizenship acquired-by group. -/
def acquiredByTbl : List (String × String) := [
  ("birth", "checkbox_birth"),
  ("election", "checkbox_election"),
  ("naturalization", "checkbox_naturalization"),
  ("ra9225", "checkbox_ra9225"),
  ("r.a. 9225", "checkbox_ra9225"),
  ("others", "checkbox_others_citizenship")]

/-- Checkbox value table for the foreign-citizenship mode group. -/
def foreignCitizenshipModeTbl : List (String × String) := [
  ("birth", "checkbox_foreign_mode_birth"),
  ("naturalization", "checkbox_foreign_mode_naturalization"),
  ("others", "checkbox_foreign_mode_others")]

/-- Checkbox group table from `field_config.py` (`CHECKBOX_MAPPINGS`).
Note it has no `processing_type` entry, although `fill_checkboxes`
subscripts that key. -/
def CHECKBOX_MAPPINGS : List (String × List (String × String)) := [
  ("applicant_category", applicantCategoryTbl),
  ("sex", sexTbl),
  ("civil_status", civilStatusTbl),
  ("acquired_by", acquiredByTbl),
  ("foreign_citizenship_mode", foreignCitizenshipModeTbl)]

/-- Scalar field table from `field_config.py` (`TEXT_FIELD_MAPPINGS`),
in source (dict-insertion) order. -/
def TEXT_FIELD_MAPPINGS : List (String × String) := [
  ("personal_info.last_name", "last_name"),
  ("personal_info.first_name", "first_name"),
  ("personal_info.middle_name", "middle_name"),
  ("personal_info.place_of_birth", "place_of_birth"),
  ("personal_info.date_of_birth.day", "dob_day"),
  ("personal_info.date_of_birth.month", "dob_month"),
  ("personal_info.date_of_birth.year", "dob_year"),
  ("personal_info.national_id", "national_id"),
  ("personal_info.present_address", "present_address"),
  ("personal_info.contact_no", "contact_no"),
  ("personal_info.email", "email"),
  ("family_info.spouse_name", "spouse_name"),
  ("family_info.spouse_citizenship", "spouse_citizenship"),
  ("family_info.father_name", "father_name"),
  ("family_info.father_citizenship", "father_citizenship"),
  ("family_info.mother_maiden_name", "mother_maiden_name"),
  ("family_info.mother_citizenship", "mother_citizenship"),
  ("citizenship_info.foreign_citizenship.country", "foreign_citizenship_country"),
  ("citizenship_info.foreign_military.country", "military_country"),
  ("citizenship_info.foreign_passport.country", "foreign_passport_country"),
  ("citizenship_info.philippine_passport.number", "ph_passport_number"),
  ("citizenship_info.philippine_passport.date_of_issue", "ph_passport_date_of_issue"),
  ("citizenship_info.philippine_passport.place_of_issue", "ph_passport_place_of_issue"),
  ("minor_info.accompanied_by", "accompanied_by"),
  ("minor_info.relationship", "minor_relationship"),
  ("minor_info.accompanying_mobile", "accompanying_mobile"),
  ("emergency_contact.name", "emergency_name"),
  ("emergency_contact.mobile", "emergency_mobile"),
  ("emergency_contact.relationship", "emergency_relationship"),
  ("emergency_contact.address", "emergency_address")]

-- ===== fill_passport_form.py =====

/-- One text placement on the PDF page: position, the text placed, and the
font size.  Font name and colour are the constants `FONT_NAME` and black
for every placement, so they are not repeated per stamp. -/
structure Stamp where
  x : Int
  y : Int
  text : String
  fontsize : Nat
deriving DecidableEq

/-- Descent loop of `get_nested_value` (lines 44-51): one key at a time;
whenever the current value is not a dict or lacks the key, `None`. -/
def goNested : List String → Json → Option Json
  | [], v => some v
  | k :: ks, .obj fs =>
    match assq k fs with
    | some v => goNested ks v
    | none => none
  | _ :: _, _ => none

/-- Source `get_nested_value(data, path)` (lines 39-51): split the dotted
path and descend, returning `None` instead of raising. -/
def get_nested_value (data : Json) (path : String) : Option Json :=
  goNested (splitOnChar '.' path) data

/-- Filter of the name-building loop in `extract_full_name` (lines 68-71):
`if part and part.upper() != "N/A"`.  A falsy part is skipped without
calling `.upper()`; a truthy non-string raises `AttributeError`. -/
def namePart (p : Json) : Except PyErr (Option String) :=
  if truthy p then
    match p with
    | .str s => if strUpper s != "N/A" then .ok (some s) else .ok none
    | _ => .error .attributeError
  else .ok none

/-- The loop of lines 69-71 over `[first_name, middle_name, last_name]`. -/
def nameParts : List Json → Except PyErr (List String)
  | [] => .ok []
  | p :: ps => do
    let o ← namePart p
    let rest ← nameParts ps
    match o with
    | some s => pure (s :: rest)
    | none => pure rest

/-- Source `extract_full_name(data)` (lines 60-73). -/
def extract_full_name (data : Json) : Except PyErr String := do
  let personal ← pyGet data "personal_info" (.obj [])
  let first_name ← pyGet personal "first_name" (.str "")
  let middle_name ← pyGet personal "middle_name" (.str "")
  let last_name ← pyGet personal "last_name" (.str "")
  let parts ← nameParts [first_name, middle_name, last_name]
  pure (joinWith " " parts)

/-- Source `insert_text(page, x, y, text, fontsize)` (lines 76-89), as the
stamps it adds to the page: nothing when `text` is empty or blank
(`if text and text.strip():`). -/
def insert_text (x y : Int) (text : String) (fontsize : Nat) : List Stamp :=
  if text != "" && strTrim text != "" then [⟨x, y, text, fontsize⟩] else []

/-- Source `insert_checkbox(page, x, y)` (lines 92-101): unconditionally
stamps the `CHECKBOX_CHAR` glyph at `CHECKBOX_FONT_SIZE`. -/
def insert_checkbox (x y : Int) : List Stamp :=
  [⟨x, y, CHECKBOX_CHAR, CHECKBOX_FONT_SIZE⟩]

/-- Guarded checkbox placement used throughout `fill_checkboxes`:
`if checkbox_key in FIELD_COORDINATES: x, y = ...; insert_checkbox(...)`. -/
def checkAt (key : String) : List Stamp :=
  match assq key FIELD_COORDINATES with
  | some (x, y) => insert_checkbox x y
  | none => []

/-- Single-choice group dispatch used throughout `fill_checkboxes`:
`if value in table: checkbox_key = table[value]; ...`. -/
def groupStamps (tbl : List (String × String)) (v : String) : List Stamp :=
  match assq v tbl with
  | some key => checkAt key
  | none => []

/-- Applicant-category block of `fill_checkboxes` (lines 107-116). -/
def appCategoryM (data : Json) : Except PyErr (List Stamp) := do
  let app_type ← pyGet data "application_type" (.obj [])
  let catJ ← pyGet app_type "applicant_category" (.str "")
  let category ← pyLower catJ
  let tbl ← pySubscript CHECKBOX_MAPPINGS "applicant_category"
  pure (groupStamps tbl category)

/-- Processing-type block of `fill_checkboxes` (lines 118-124).  Line 120
subscripts `CHECKBOX_MAPPINGS["processing_type"]`, a key the table does not
define, so once line 119 survives, this block raises `KeyError`. -/
def procTypeM (data : Json) : Except PyErr (List Stamp) := do
  let app_type ← pyGet data "application_type" (.obj [])
  let ptJ ← pyGet app_type "processing_type" (.str "")
  let proc_type ← pyLower ptJ
  let tbl ← pySubscript CHECKBOX_MAPPINGS "processing_type"
  pure (groupStamps tbl proc_type)

/-- Sex block of `fill_checkboxes` (lines 127-135). -/
def sexM (data : Json) : Except PyErr (List Stamp) := do
  let personal ← pyGet data "personal_info" (.obj [])
  let sexJ ← pyGet personal "sex" (.str "")
  let sex ← pyLower sexJ
  let tbl ← pySubscript CHECKBOX_MAPPINGS "sex"
  pure (groupStamps tbl sex)

/-- Civil-status block of `fill_checkboxes` (lines 137-143): the value is
lowercased and every space replaced by an underscore before lookup. -/
def civilStatusM (data : Json) : Except PyErr (List Stamp) := do
  let personal ← pyGet data "personal_info" (.obj [])
  let csJ ← pyGet personal "civil_status" (.str "")
  let low ← pyLower csJ
  let civil_status := replaceChar ' ' '_' low
  let tbl ← pySubscript CHECKBOX_MAPPINGS "civil_status"
  pure (groupStamps tbl civil_status)

/-- Acquired-by block of `fill_checkboxes` (lines 146-154). -/
def acquiredByM (data : Json) : Except PyErr (List Stamp) := do
  let citizenship ← pyGet data "citizenship_info" (.obj [])
  let abJ ← pyGet citizenship "acquired_by" (.str "")
  let acquired_by ← pyLower abJ
  let tbl ← pySubscript CHECKBOX_MAPPINGS "acquired_by"
  pure (groupStamps tbl acquired_by)

/-- Foreign-citizenship yes/no block with its dependent mode sub-group
(lines 156-172): the mode is looked up only under a truthy `acquired`. -/
def foreignCitM (data : Json) : Except PyErr (List Stamp) := do
  let citizenship ← pyGet data "citizenship_info" (.obj [])
  let foreign_cit ← pyGet citizenship "foreign_citizenship" (.obj [])
  let acq ← pyGet foreign_cit "acquired" .null
  if truthy acq then do
    let yesMarks := checkAt "checkbox_foreign_citizenship_yes"
    let mJ ← pyGet foreign_cit "mode" (.str "")
    let mode ← pyLower mJ
    let tbl ← pySubscript CHECKBOX_MAPPINGS "foreign_citizenship_mode"
    pure (yesMarks ++ groupStamps tbl mode)
  else
    pure (checkAt "checkbox_foreign_citizenship_no")

/-- Foreign-military yes/no block of `fill_checkboxes` (lines 174-183). -/
def militaryM (data : Json) : Except PyErr (List Stamp) := do
  let citizenship ← pyGet data "citizenship_info" (.obj [])
  let foreign_mil ← pyGet citizenship "foreign_military" (.obj [])
  let served ← pyGet foreign_mil "served" .null
  if truthy served then
    pure (checkAt "checkbox_military_yes")
  else
    pure (checkAt "checkbox_military_no")

/-- Renounced-citizenship yes/no block of `fill_checkboxes` (lines 185-193). -/
def renouncedM (data : Json) : Except PyErr (List Stamp) := do
  let citizenship ← pyGet data "citizenship_info" (.obj [])
  let r ← pyGet citizenship "renounced_philippine_citizenship" .null
  if truthy r then
    pure (checkAt "checkbox_renounced_yes")
  else
    pure (checkAt "checkbox_renounced_no")

/-- Foreign-passport yes/no block of `fill_checkboxes` (lines 195-204). -/
def foreignPassM (data : Json) : Except PyErr (List Stamp) := do
  let citizenship ← pyGet data "citizenship_info" (.obj [])
  let foreign_pass ← pyGet citizenship "foreign_passport" (.obj [])
  let issued ← pyGet foreign_pass "issued" .null
  if truthy issued then
    pure (checkAt "checkbox_foreign_passport_yes")
  else
    pure (checkAt "checkbox_foreign_passport_no")

/-- Philippine-passport yes/no block of `fill_checkboxes` (lines 206-215). -/
def phPassM (data : Json) : Except PyErr (List Stamp) := do
  let citizenship ← pyGet data "citizenship_info" (.obj [])
  let ph_pass ← pyGet citizenship "philippine_passport" (.obj [])
  let issued ← pyGet ph_pass "issued" .null
  if truthy issued then
    pure (checkAt "checkbox_ph_passport_yes")
  else
    pure (checkAt "checkbox_ph_passport_no")

/-- Source `fill_checkboxes(page, data)` (lines 104-215): the blocks run in
source order; the first raised exception propagates, and the stamps are the
concatenation of the blocks' stamps in program order. -/
def fill_checkboxes (data : Json) : Except PyErr (List Stamp) := do
  let m1 ← appCategoryM data
  let m2 ← procTypeM data
  let m3 ← sexM data
  let m4 ← civilStatusM data
  let m5 ← acquiredByM data
  let m6 ← foreignCitM data
  let m7 ← militaryM data
  let m8 ← renouncedM data
  let m9 ← foreignPassM data
  let m10 ← phPassM data
  pure (m1 ++ m2 ++ m3 ++ m4 ++ m5 ++ m6 ++ m7 ++ m8 ++ m9 ++ m10)

/-- Stamps contributed by one entry of `TEXT_FIELD_MAPPINGS` in
`fill_text_fields` (lines 220-224): resolve via `get_nested_value`, then
`if value and coord_key in FIELD_COORDINATES: insert_text(..., str(value))`. -/
def textEntryStamps (data : Json) (entry : String × String) : List Stamp :=
  match get_nested_value data entry.1 with
  | some value =>
    if truthy value then
      match assq entry.2 FIELD_COORDINATES with
      | some (x, y) => insert_text x y (pyStr value) FONT_SIZE
      | none => []
    else []
  | none => []

/-- Source `fill_text_fields(page, data)` (lines 218-224), iterating the
scalar table in source order.  It is total: no entry can raise. -/
def fill_text_fields (data : Json) : List Stamp :=
  (TEXT_FIELD_MAPPINGS.map (textEntryStamps data)).flatten

/-- How `generate` can fail: the template cannot be opened, or a Python
exception escapes the filling code. -/
inductive GenError where
  | templateUnavailable
  | pyError (e : PyErr)
deriving DecidableEq

/-- Template source: whether `fitz.open` succeeds on it, and the page
content of the blank form. -/
structure Template where
  ok : Bool
  page : List Stamp

/-- Opening the template (`fitz.open(template_path)`, line 239): the one
resource acquisition; failure is the template-unavailable error. -/
def openTemplate (t : Template) : Except GenError (List Stamp) :=
  if t.ok then .ok t.page else .error .templateUnavailable

/-- Source `generate_filled_pdf_bytes(data, template_path)` (lines 227-257)
instrumented with the handle lifecycle: the second component is `true` iff
no open template handle remains when the call returns.  The source closes
the document only at line 252, after `tobytes()`; there is no
`try`/`finally`, so an exception raised between `fitz.open` and
`doc.close()` leaves the handle open.  `extract_full_name` runs after the
close. -/
def generateH (data : Json) (t : Template) :
    Except GenError (List Stamp × String) × Bool :=
  match openTemplate t with
  | .error e => (.error e, true)
  | .ok page =>
    match fill_checkboxes data with
    | .error e => (.error (.pyError e), false)
    | .ok cb =>
      let txt := fill_text_fields data
      let pdf_bytes := page ++ cb ++ txt
      match extract_full_name data with
      | .error e => (.error (.pyError e), true)
      | .ok full_name => (.ok (pdf_bytes, full_name), true)

/-- Source `generate_filled_pdf_bytes`: the value returned or the
exception propagated (first component of the instrumented run).  The
serialized document is modelled as the page's stamp sequence. -/
def generate_filled_pdf_bytes (data : Json) (t : Template) :
    Except GenError (List Stamp × String) :=
  (generateH data t).1

/-- Ambient state a call could observe: a clock, a random seed and a count
of previous calls.  The source reads none of these. -/
structure World where
  time : Nat
  rngSeed : Nat
  callsBefore : Nat

/-- The engine entry point as run in an ambient world: the source consults
no clock, randomness or cross-call state, so the world is unused. -/
def generateW (_w : World) (data : Json) (t : Template) :
    Except GenError (List Stamp × String) :=
  generate_filled_pdf_bytes data t

/-- Two back-to-back calls in the same session: the second runs in a world
with a later clock and one more prior call. -/
def generateTwice (w : World) (data : Json) (t : Template) :
    Except GenError (List Stamp × String) × Except GenError (List Stamp × String) :=
  (generateW w data t,
   generateW ⟨w.time + 1, w.rngSeed, w.callsBefore + 1⟩ data t)

-- ===== helper lemmas =====

/-- Bind of an `ok` value steps to the continuation. -/
theorem exbind_ok {ε α β : Type} (a : α) (f : α → Except ε β) :
    ((.ok a : Except ε α) >>= f) = f a := rfl

/-- Bind of an `error` value short-circuits. -/
theorem exbind_error {ε α β : Type} (e : ε) (f : α → Except ε β) :
    ((.error e : Except ε α) >>= f) = .error e := rfl

/-- Inversion of a successful bind. -/
theorem bind_ok_inv {ε α β : Type} {x : Except ε α} {f : α → Except ε β} {b : β}
    (h : (x >>= f) = .ok b) : ∃ a, x = .ok a ∧ f a = .ok b := by
  cases x with
  | ok a => exact ⟨a, rfl, h⟩
  | error e => rw [exbind_error] at h; cases h

/-- The checkbox group table has no `processing_type` key, so the subscript
on line 120 raises `KeyError`. -/
theorem pySubscript_processing :
    pySubscript CHECKBOX_MAPPINGS "processing_type" = .error (.keyError "processing_type") := rfl

/-- The processing-type block can never succeed: if its dict accesses do
not raise `AttributeError` first, the missing-table subscript raises
`KeyError("processing_type")`. -/
theorem procTypeM_error (data : Json) : ∃ e, procTypeM data = .error e := by
  unfold procTypeM
  cases h1 : pyGet data "application_type" (.obj []) with
  | error e => rw [exbind_error]; exact ⟨e, rfl⟩
  | ok app_type =>
    rw [exbind_ok]
    cases h2 : pyGet app_type "processing_type" (.str "") with
    | error e => rw [exbind_error]; exact ⟨e, rfl⟩
    | ok ptJ =>
      rw [exbind_ok]
      cases h3 : pyLower ptJ with
      | error e => rw [exbind_error]; exact ⟨e, rfl⟩
      | ok pt => rw [exbind_ok, pySubscript_processing, exbind_error]; exact ⟨_, rfl⟩

/-- `fill_checkboxes` never succeeds: its second block always raises. -/
theorem fill_checkboxes_error (data : Json) : ∃ e, fill_checkboxes data = .error e := by
  unfold fill_checkboxes
  cases h1 : appCategoryM data with
  | error e => rw [exbind_error]; exact ⟨e, rfl⟩
  | ok m1 =>
    rw [exbind_ok]
    obtain ⟨e, he⟩ := procTypeM_error data
    rw [he, exbind_error]
    exact ⟨e, rfl⟩

/-- `fill_checkboxes` is never `ok`, Boolean form. -/
theorem fill_checkboxes_not_ok (data : Json) : exceptIsOk (fill_checkboxes data) = false := by
  obtain ⟨e, he⟩ := fill_checkboxes_error data
  rw [he]; rfl

-- ===== claim C7 =====

/-- C7: `generate` is deterministic — its outcome (bytes and display name,
or the propagated error) is a function of the record, the template and the
static tables alone; it is unchanged under any ambient world (clock,
random seed, prior-call count), and two back-to-back calls in one session
agree. -/
theorem c7_generate_deterministic (w₁ w₂ : World) (data : Json) (t : Template) :
    generateW w₁ data t = generateW w₂ data t ∧
    (generateTwice w₁ data t).1 = (generateTwice w₁ data t).2 :=
  ⟨rfl, rfl⟩

-- ===== claim C9 =====

/-- C9 counterexample: a run that opens the template and then fails in the
checkbox pass returns with the handle still open (`false` flag): the claim
that every exit path closes the handle is false — the source has no
`try`/`finally` around lines 239-252. -/
theorem c9_counterexample :
    generateH (.obj []) ⟨true, []⟩ =
      (.error (.pyError (.keyError "processing_type")), false) := rfl

/-- C9 amended: the handle is closed (or never acquired) exactly when the
template fails to open; on every run that does open the template the
filling code raises before `doc.close()`, so the handle is left open. -/
theorem c9_amended_thm (data : Json) (t : Template) :
    (generateH data t).2 = !t.ok := by
  unfold generateH openTemplate
  cases ht : t.ok with
  | false => rfl
  | true =>
    simp only [if_true]
    obtain ⟨e, he⟩ := fill_checkboxes_error data
    rw [he]
    rfl

-- ===== claim C1 =====

/-- C1: the claim that `generate` propagates only a template-unavailable
failure is wrong on this code: the checkbox pass subscripts the missing
`processing_type` group, so every record raises `KeyError` (first
conjunct, on the empty record), a section bound to a non-mapping raises
`AttributeError` (second conjunct), no call ever succeeds (third
conjunct), and an unopenable template is reported as template-unavailable
(fourth conjunct). -/
theorem c1_code_bug_eval :
    generate_filled_pdf_bytes (.obj []) ⟨true, []⟩ =
      .error (.pyError (.keyError "processing_type"))
    ∧ generate_filled_pdf_bytes (.obj [("application_type", .str "adult")]) ⟨true, []⟩ =
      .error (.pyError .attributeError)
    ∧ (∀ (data : Json) (t : Template),
        exceptIsOk (generate_filled_pdf_bytes data t) = false)
    ∧ generate_filled_pdf_bytes (.obj []) ⟨false, []⟩ = .error .templateUnavailable := by
  refine ⟨rfl, rfl, ?_, rfl⟩
  intro data t
  unfold generate_filled_pdf_bytes generateH openTemplate
  cases ht : t.ok with
  | false => rfl
  | true =>
    simp only [if_true]
    obtain ⟨e, he⟩ := fill_checkboxes_error data
    rw [he]
    rfl

-- ===== claim C6 =====

/-- Python `isinstance(value, dict) and key in value` (line 47). -/
def isDictWithKey (v : Json) (k : String) : Bool :=
  match v with
  | .obj fs => (assq k fs).isSome
  | _ => false

/-- Splitting a descent at a prefix: resolving `ks₁ ++ ks₂` descends by
`ks₁` and continues from the value found there. -/
theorem goNested_append (ks₁ ks₂ : List String) (data : Json) :
    goNested (ks₁ ++ ks₂) data = (goNested ks₁ data).bind (goNested ks₂) := by
  induction ks₁ generalizing data with
  | nil => rfl
  | cons k rest ih =>
    cases data with
    | obj fs =>
      simp only [List.cons_append, goNested]
      cases assq k fs with
      | some v => simpa using ih v
      | none => simp
    | str s => rfl
    | bool b => rfl
    | num n => rfl
    | null => rfl
    | arr xs => rfl

/-- C6: `get_nested_value` descends one segment at a time and, at any step
where the current value is not a keyed mapping or the key is missing,
returns `none` without raising; in particular `a.b.c` on a record where
`a.b` is a string resolves to `none`, as does any path into a non-mapping
root. -/
theorem c6_resolve_absent :
    (∀ (data v : Json) (ks₁ ks₂ : List String) (k : String),
      goNested ks₁ data = some v →
      isDictWithKey v k = false →
      goNested (ks₁ ++ k :: ks₂) data = none)
    ∧ get_nested_value (.obj [("a", .obj [("b", .str "x")])]) "a.b.c" = none
    ∧ get_nested_value (.str "s") "a" = none := by
  refine ⟨?_, rfl, rfl⟩
  intro data v ks₁ ks₂ k h hv
  rw [goNested_append, h]
  show goNested (k :: ks₂) v = none
  cases v with
  | obj fs =>
    simp only [isDictWithKey] at hv
    unfold goNested
    cases ha : assq k fs with
    | some w => rw [ha] at hv; simp at hv
    | none => rfl
  | str s => rfl
  | bool b => rfl
  | num n => rfl
  | null => rfl
  | arr xs => rfl

/-- C6 witness: the general statement applied to the record where `a.b` is
the string `"x"` and the requested path is `a.b.c`. -/
theorem c6_witness :
    goNested ["a", "b"] (.obj [("a", .obj [("b", .str "x")])]) = some (.str "x")
    ∧ isDictWithKey (.str "x") "c" = false
    ∧ goNested (["a", "b"] ++ ["c"]) (.obj [("a", .obj [("b", .str "x")])]) = none :=
  ⟨rfl, rfl,
   c6_resolve_absent.1 (.obj [("a", .obj [("b", .str "x")])]) (.str "x")
     ["a", "b"] [] "c" rfl rfl⟩

-- ===== claim C10 =====

/-- C10: a resolved value whose textual form is all whitespace is written
nowhere: `insert_text` drops empty and blank strings alike, so a
whitespace-only string — although truthy and neither absent nor empty —
contributes no stamp, at any coordinate and for any table entry. -/
theorem c10_whitespace_skipped :
    (∀ (x y : Int) (fs : Nat) (s : String), strTrim s = "" → insert_text x y s fs = [])
    ∧ (∀ (data : Json) (p k : String) (s : String),
        get_nested_value data p = some (.str s) → strTrim s = "" →
        textEntryStamps data (p, k) = [])
    ∧ truthy (.str " ") = true := by
  have hins : ∀ (x y : Int) (fs : Nat) (s : String), strTrim s = "" → insert_text x y s fs = [] := by
    intro x y fs s hs
    unfold insert_text
    rw [hs]
    simp
  refine ⟨hins, ?_, rfl⟩
  intro data p k s hres hs
  unfold textEntryStamps
  rw [hres]
  cases htr : truthy (.str s) with
  | false => simp [htr]
  | true =>
    simp only [htr, if_true]
    cases hco : assq k FIELD_COORDINATES with
    | none => rfl
    | some xy =>
      obtain ⟨x, y⟩ := xy
      exact hins x y FONT_SIZE s hs

/-- C10 witness: a record whose last name is a single space produces no
stamp for the last-name entry, and `insert_text` itself drops the blank. -/
theorem c10_witness :
    get_nested_value (.obj [("personal_info", .obj [("last_name", .str " ")])])
      "personal_info.last_name" = some (.str " ")
    ∧ strTrim " " = ""
    ∧ textEntryStamps (.obj [("personal_info", .obj [("last_name", .str " ")])])
        ("personal_info.last_name", "last_name") = []
    ∧ insert_text 35 180 " " 9 = [] :=
  ⟨rfl, rfl,
   c10_whitespace_skipped.2.1 (.obj [("personal_info", .obj [("last_name", .str " ")])])
     "personal_info.last_name" "last_name" " " rfl rfl,
   c10_whitespace_skipped.1 35 180 9 " " rfl⟩

-- ===== claim C5 =====

/-- Optional field of the identity section: present as a string, or absent. -/
def optField (k : String) : Option String → List (String × Json)
  | none => []
  | some s => [(k, .str s)]

/-- Record whose identity section carries the three name fields, each
either a string or absent. -/
def mkPersonal (f m l : Option String) : Json :=
  .obj [("personal_info",
    .obj (optField "first_name" f ++ optField "middle_name" m ++ optField "last_name" l))]

/-- Keep a name part unless it is empty or the `"N/A"` sentinel in any
letter case. -/
def keepName (p : String) : Bool := p != "" && strUpper p != "N/A"

/-- Modelled from the spec: treat empty or case-insensitive `"N/A"` parts
as absent and join the remaining parts with single spaces in the order
[given, middle, last], empty when all are absent. -/
def specDisplayName (f m l : Option String) : String :=
  joinWith " " (([f.getD "", m.getD "", l.getD ""]).filter keepName)

/-- The name-part filter in closed form. -/
theorem namePart_str (s : String) :
    namePart (.str s) = .ok (if keepName s then some s else none) := by
  unfold namePart keepName truthy
  cases h1 : s != "" with
  | false => simp [h1]
  | true =>
    cases h2 : strUpper s != "N/A" with
    | false => simp [h1, h2]
    | true => simp [h1, h2]

/-- The name-building loop equals a filter over the three parts. -/
theorem nameParts_eq_filter (a b c : String) :
    nameParts [.str a, .str b, .str c] = .ok ([a, b, c].filter keepName) := by
  simp only [nameParts, namePart_str]
  cases h1 : keepName a <;> cases h2 : keepName b <;> cases h3 : keepName c <;>
    simp [h1, h2, h3, List.filter] <;> rfl

/-- `extract_full_name` on the identity record, reduced to the loop. -/
theorem extract_reduces (f m l : Option String) :
    extract_full_name (mkPersonal f m l) =
      nameParts [.str (f.getD ""), .str (m.getD ""), .str (l.getD "")] >>=
        fun parts => pure (joinWith " " parts) := by
  cases f <;> cases m <;> cases l <;> rfl

/-- C5: `extract_full_name` reads the three name fields of the identity
section, treats empty or case-insensitive `"N/A"` parts as absent, joins
the surviving parts with single spaces in order [given, middle, last], and
returns the empty string when all are absent; with the claim's examples. -/
theorem c5_display_name :
    (∀ f m l : Option String,
      extract_full_name (mkPersonal f m l) = .ok (specDisplayName f m l))
    ∧ extract_full_name (mkPersonal (some "Maria") (some "Cruz") (some "Santos")) =
        .ok "Maria Cruz Santos"
    ∧ extract_full_name (mkPersonal (some "Maria") none (some "Santos")) =
        .ok "Maria Santos"
    ∧ extract_full_name (mkPersonal (some "Maria") (some "n/a") (some "Santos")) =
        .ok "Maria Santos"
    ∧ extract_full_name (mkPersonal (some "N/A") none (some "Reyes")) = .ok "Reyes"
    ∧ extract_full_name (mkPersonal none none none) = .ok "" := by
  refine ⟨?_, rfl, rfl, rfl, rfl, rfl⟩
  intro f m l
  rw [extract_reduces, nameParts_eq_filter, exbind_ok]
  rfl

-- ===== claim C2 =====

/-- Record whose last-name path resolves to a nested (non-empty) mapping. -/
def dNested : Json :=
  .obj [("personal_info", .obj [("last_name", .obj [("x", .str "y")])])]

/-- C2 counterexample: the claim says a path resolving to a nested mapping
produces no text at its coordinate, but a non-empty mapping is truthy, so
`fill_text_fields` writes its `str(...)` coercion at the last-name
coordinate — a single non-blank stamp at (35, 180). -/
theorem c2_counterexample :
    fill_text_fields dNested = [⟨35, 180, pyStr (.obj [("x", .str "y")]), 9⟩]
    ∧ (pyStr (.obj [("x", .str "y")]) != "") = true
    ∧ (strTrim (pyStr (.obj [("x", .str "y")])) != "") = true :=
  ⟨rfl, rfl, rfl⟩

/-- One unfolding step of `textEntryStamps`. -/
theorem textEntryStamps_eq (data : Json) (p k : String) :
    textEntryStamps data (p, k) =
      match get_nested_value data p with
      | some value =>
        if truthy value then
          match assq k FIELD_COORDINATES with
          | some (x, y) => insert_text x y (pyStr value) FONT_SIZE
          | none => []
        else []
      | none => [] := rfl

/-- C2 amended: a scalar entry is skipped exactly when its resolved value
is absent or falsy (absent path, `None`, empty string, `False`, `0`, empty
mapping); any truthy value — a non-empty nested mapping included — is
written at the mapped coordinate as its textual coercion. -/
theorem c2_amended_thm :
    (∀ (data : Json) (p k : String),
      get_nested_value data p = none → textEntryStamps data (p, k) = [])
    ∧ (∀ (data : Json) (p k : String) (v : Json),
        get_nested_value data p = some v → truthy v = false →
        textEntryStamps data (p, k) = [])
    ∧ (∀ (data : Json) (p k : String) (v : Json) (x y : Int),
        get_nested_value data p = some v → truthy v = true →
        assq k FIELD_COORDINATES = some (x, y) →
        textEntryStamps data (p, k) = insert_text x y (pyStr v) FONT_SIZE)
    ∧ fill_text_fields dNested = [⟨35, 180, pyStr (.obj [("x", .str "y")]), 9⟩] := by
  refine ⟨?_, ?_, ?_, rfl⟩
  · intro data p k h
    rw [textEntryStamps_eq, h]
  · intro data p k v h ht
    rw [textEntryStamps_eq, h]
    simp [ht]
  · intro data p k v x y h ht hco
    rw [textEntryStamps_eq, h]
    simp only [ht, if_true]
    rw [hco]

/-- C2 witness: the amended write rule applied to the nested-mapping
record at the last-name entry. -/
theorem c2_amended_witness :
    get_nested_value dNested "personal_info.last_name" = some (.obj [("x", .str "y")])
    ∧ truthy (.obj [("x", .str "y")]) = true
    ∧ assq "last_name" FIELD_COORDINATES = some (35, 180)
    ∧ textEntryStamps dNested ("personal_info.last_name", "last_name") =
        insert_text 35 180 (pyStr (.obj [("x", .str "y")])) FONT_SIZE :=
  ⟨rfl, rfl, rfl,
   c2_amended_thm.2.2.1 dNested "personal_info.last_name" "last_name"
     (.obj [("x", .str "y")]) 35 180 rfl rfl rfl⟩

-- ===== claim C3 =====

/-- Record with only a civil-status value. -/
def dCivil (v : String) : Json :=
  .obj [("personal_info", .obj [("civil_status", .str v)])]

/-- Record with only a sex value. -/
def dSex (v : String) : Json :=
  .obj [("personal_info", .obj [("sex", .str v)])]

/-- Record with only an acquired-by value. -/
def dAcq (v : String) : Json :=
  .obj [("citizenship_info", .obj [("acquired_by", .str v)])]

/-- Modelled from the spec: lowercase, trim surrounding whitespace, and
collapse internal space runs to single underscores. -/
def specNormalize (s : String) : String :=
  joinWith "_" ((splitOnChar ' ' (strLower (strTrim s))).filter (fun p => p != ""))

/-- C3 counterexample: the claimed normalization maps a value with
surrounding whitespace to a table key, but the civil-status code only
lowercases and replaces each space by an underscore, so
`" legally separated"` matches nothing; and the full checkbox pass on the
claim's own example aborts with `KeyError` before marking anything. -/
theorem c3_counterexample :
    specNormalize " legally separated" = "legally_separated"
    ∧ assq "legally_separated" civilStatusTbl = some "checkbox_legally_separated"
    ∧ civilStatusM (dCivil " legally separated") = .ok []
    ∧ fill_checkboxes (dCivil "Legally Separated") = .error (.keyError "processing_type") :=
  ⟨rfl, rfl, rfl, rfl⟩

/-- C3 amended: only the civil-status value is space-normalized, by
lowercasing and then replacing every space (leading and trailing included,
runs uncollapsed) with an underscore — so `"Legally Separated"` marks
exactly the legally-separated field while `" single"` and
`"Legally  Separated"` match nothing; every other grouped value is matched
after lowercasing only, which is what lets `"R.A. 9225"` match its
space-containing table key (underscore-normalizing it would match
nothing). -/
theorem c3_amended_thm :
    (∀ v : String, civilStatusM (dCivil v) =
      .ok (groupStamps civilStatusTbl (replaceChar ' ' '_' (strLower v))))
    ∧ civilStatusM (dCivil "Legally Separated") = .ok [⟨342, 303, "X", 10⟩]
    ∧ civilStatusM (dCivil " single") = .ok []
    ∧ civilStatusM (dCivil "Legally  Separated") = .ok []
    ∧ (∀ v : String, sexM (dSex v) = .ok (groupStamps sexTbl (strLower v)))
    ∧ (∀ v : String, acquiredByM (dAcq v) = .ok (groupStamps acquiredByTbl (strLower v)))
    ∧ acquiredByM (dAcq "R.A. 9225") = .ok [⟨337, 395, "X", 10⟩]
    ∧ groupStamps acquiredByTbl (replaceChar ' ' '_' (strLower "R.A. 9225")) = [] :=
  ⟨fun _ => rfl, rfl, rfl, rfl, fun _ => rfl, fun _ => rfl, rfl, rfl⟩

-- ===== claim C4 =====

/-- Record whose citizenship section carries the given fields. -/
def citRec (fs : List (String × Json)) : Json :=
  .obj [("citizenship_info", .obj fs)]

/-- Citizenship record with a foreign-citizenship sub-section carrying an
`acquired` flag and a `mode` value. -/
def fcRec (acq mode : Json) : Json :=
  citRec [("foreign_citizenship", .obj [("acquired", acq), ("mode", mode)])]

/-- C4: the binary yes/no branch code implements exactly the claimed
policy — a truthy flag marks the yes field, any other value (absence and
whole-section absence included) marks the no field, and the dependent mode
sub-group is consulted only under a truthy `acquired` — but the checkbox
pass as a whole aborts with `KeyError("processing_type")` before reaching
any of these branches, so on the shipped code no checkbox is ever marked
(first two conjuncts). -/
theorem c4_binary_policy :
    fill_checkboxes (citRec [("foreign_military", .obj [("served", .bool true)])]) =
      .error (.keyError "processing_type")
    ∧ (∀ data : Json, exceptIsOk (fill_checkboxes data) = false)
    ∧ (∀ served : Json, militaryM (citRec [("foreign_military", .obj [("served", served)])]) =
        if truthy served then .ok [⟨409, 413, "X", 10⟩] else .ok [⟨438, 413, "X", 10⟩])
    ∧ militaryM (.obj []) = .ok [⟨438, 413, "X", 10⟩]
    ∧ militaryM (citRec []) = .ok [⟨438, 413, "X", 10⟩]
    ∧ (∀ r : Json, renouncedM (citRec [("renounced_philippine_citizenship", r)]) =
        if truthy r then .ok [⟨436, 439, "X", 10⟩] else .ok [⟨465, 439, "X", 10⟩])
    ∧ (∀ i : Json, foreignPassM (citRec [("foreign_passport", .obj [("issued", i)])]) =
        if truthy i then .ok [⟨166, 459, "X", 10⟩] else .ok [⟨194, 459, "X", 10⟩])
    ∧ (∀ i : Json, phPassM (citRec [("philippine_passport", .obj [("issued", i)])]) =
        if truthy i then .ok [⟨439, 454, "X", 10⟩] else .ok [⟨468, 454, "X", 10⟩])
    ∧ (∀ (acq : Json) (mode : String), foreignCitM (fcRec acq (.str mode)) =
        if truthy acq then
          .ok (⟨170, 416, "X", 10⟩ :: groupStamps foreignCitizenshipModeTbl (strLower mode))
        else .ok [⟨193, 416, "X", 10⟩])
    ∧ (∀ mode : Json, foreignCitM (fcRec (.bool false) mode) = .ok [⟨193, 416, "X", 10⟩]) :=
  ⟨rfl, fill_checkboxes_not_ok, fun _ => rfl, rfl, rfl, fun _ => rfl, fun _ => rfl,
   fun _ => rfl, fun _ _ => rfl, fun _ => rfl⟩

-- ===== claim C8 =====

/-- Stamps a page places at one coordinate, in z-order: the observable
content of the rendered page at that point. -/
def stampsAt (c : Int × Int) (page : List Stamp) : List Stamp :=
  page.filter (fun s => decide ((s.x, s.y) = c))

/-- Two stamp lists touch disjoint coordinate sets. -/
def posDisjoint (A B : List Stamp) : Prop :=
  ∀ a ∈ A, ∀ b ∈ B, (a.x, a.y) ≠ (b.x, b.y)

/-- Writing two position-disjoint stamp batches in either order leaves the
same observable content at every coordinate. -/
theorem stampsAt_swap (A B : List Stamp) (h : posDisjoint A B) (c : Int × Int) :
    stampsAt c (A ++ B) = stampsAt c (B ++ A) := by
  unfold stampsAt
  rw [List.filter_append, List.filter_append]
  rcases hA : A.filter (fun s => decide ((s.x, s.y) = c)) with _ | ⟨a, as⟩
  · rw [hA]; simp
  · have haA : a ∈ A ∧ (a.x, a.y) = c := by
      have hm : a ∈ A.filter (fun s => decide ((s.x, s.y) = c)) := by
        rw [hA]; exact List.mem_cons_self a as
      have hm2 := List.mem_filter.mp hm
      exact ⟨hm2.1, of_decide_eq_true hm2.2⟩
    have hB : B.filter (fun s => decide ((s.x, s.y) = c)) = [] := by
      rw [List.filter_eq_nil_iff]
      intro b hb hbc
      exact h a haA.1 b hb (haA.2.trans (of_decide_eq_true hbc).symm)
    rw [hB, hA]
    simp

/-- All checkbox field names of the coordinate table. -/
def cbKeys : List String := [
  "checkbox_adult", "checkbox_minor", "checkbox_male", "checkbox_female",
  "checkbox_single", "checkbox_married", "checkbox_widow",
  "checkbox_legally_separated", "checkbox_annulled", "checkbox_birth",
  "checkbox_election", "checkbox_naturalization", "checkbox_ra9225",
  "checkbox_others_citizenship", "checkbox_foreign_citizenship_yes",
  "checkbox_foreign_citizenship_no", "checkbox_foreign_mode_birth",
  "checkbox_foreign_mode_naturalization", "checkbox_foreign_mode_others",
  "checkbox_military_yes", "checkbox_military_no", "checkbox_renounced_yes",
  "checkbox_renounced_no", "checkbox_foreign_passport_yes",
  "checkbox_foreign_passport_no", "checkbox_ph_passport_yes",
  "checkbox_ph_passport_no"]

/-- Coordinates the checkbox pass can write to. -/
def cbCoords : List (Int × Int) :=
  cbKeys.filterMap (fun k => assq k FIELD_COORDINATES)

/-- Coordinates the scalar-field pass can write to. -/
def txtCoords : List (Int × Int) :=
  (TEXT_FIELD_MAPPINGS.map Prod.snd).filterMap (fun k => assq k FIELD_COORDINATES)

/-- A successful association lookup returns one of the table's values. -/
theorem assq_mem {α : Type} (k : String) (tbl : List (String × α)) (v : α)
    (h : assq k tbl = some v) : v ∈ tbl.map Prod.snd := by
  induction tbl with
  | nil => cases h
  | cons p rest ih =>
    obtain ⟨k', w⟩ := p
    unfold assq at h
    split at h
    · cases h; simp
    · exact List.mem_cons_of_mem _ (ih h)

/-- `checkAt` either places nothing or one glyph at the key's coordinate. -/
theorem checkAt_cases (key : String) :
    checkAt key = [] ∨
    ∃ x y, assq key FIELD_COORDINATES = some (x, y) ∧ checkAt key = [⟨x, y, "X", 10⟩] := by
  unfold checkAt
  cases e : assq key FIELD_COORDINATES with
  | none => left; rfl
  | some xy =>
    right
    obtain ⟨x, y⟩ := xy
    exact ⟨x, y, rfl, rfl⟩

/-- Any stamp from a guarded checkbox placement at a checkbox key sits at
a checkbox coordinate. -/
theorem checkAt_pos (key : String) (hk : key ∈ cbKeys) :
    ∀ s ∈ checkAt key, (s.x, s.y) ∈ cbCoords := by
  rcases checkAt_cases key with h | ⟨x, y, he, h⟩ <;> rw [h]
  · intro s hs; simp at hs
  · intro s hs
    simp at hs
    subst hs
    exact List.mem_filterMap.mpr ⟨key, hk, he⟩

/-- Any stamp from a single-choice dispatch over a table whose targets are
checkbox keys sits at a checkbox coordinate. -/
theorem groupStamps_pos (tbl : List (String × String))
    (hsub : ∀ key ∈ tbl.map Prod.snd, key ∈ cbKeys) (v : String) :
    ∀ s ∈ groupStamps tbl v, (s.x, s.y) ∈ cbCoords := by
  intro s hs
  unfold groupStamps at hs
  cases e : assq v tbl with
  | none => rw [e] at hs; simp at hs
  | some key =>
    rw [e] at hs
    exact checkAt_pos key (hsub key (assq_mem v tbl key e)) s hs

/-- Inversion of a successful table fetch. -/
theorem pySubscript_ok_inv {α : Type} {tbl : List (String × α)} {k : String} {v : α}
    (h : pySubscript tbl k = .ok v) : assq k tbl = some v := by
  unfold pySubscript at h
  cases e : assq k tbl with
  | none => rw [e] at h; cases h
  | some w => rw [e] at h; cases h; rfl

/-- Stamps of a successful applicant-category block sit at checkbox
coordinates. -/
theorem appCategoryM_pos (data : Json) (l : List Stamp) (h : appCategoryM data = .ok l) :
    ∀ s ∈ l, (s.x, s.y) ∈ cbCoords := by
  unfold appCategoryM at h
  obtain ⟨a, ha, h⟩ := bind_ok_inv h
  obtain ⟨b, hb, h⟩ := bind_ok_inv h
  obtain ⟨v, hv, h⟩ := bind_ok_inv h
  obtain ⟨tbl, htbl, h⟩ := bind_ok_inv h
  have he : tbl = applicantCategoryTbl := by
    have h2 := pySubscript_ok_inv htbl
    have h3 : assq "applicant_category" CHECKBOX_MAPPINGS = some applicantCategoryTbl := rfl
    rw [h3] at h2
    cases h2
    rfl
  subst he
  cases h
  exact groupStamps_pos _ (by decide) v

/-- Stamps of a successful sex block sit at checkbox coordinates. -/
theorem sexM_pos (data : Json) (l : List Stamp) (h : sexM data = .ok l) :
    ∀ s ∈ l, (s.x, s.y) ∈ cbCoords := by
  unfold sexM at h
  obtain ⟨a, ha, h⟩ := bind_ok_inv h
  obtain ⟨b, hb, h⟩ := bind_ok_inv h
  obtain ⟨v, hv, h⟩ := bind_ok_inv h
  obtain ⟨tbl, htbl, h⟩ := bind_ok_inv h
  have he : tbl = sexTbl := by
    have h2 := pySubscript_ok_inv htbl
    have h3 : assq "sex" CHECKBOX_MAPPINGS = some sexTbl := rfl
    rw [h3] at h2
    cases h2
    rfl
  subst he
  cases h
  exact groupStamps_pos _ (by decide) v

/-- Stamps of a successful civil-status block sit at checkbox coordinates. -/
theorem civilStatusM_pos (data : Json) (l : List Stamp) (h : civilStatusM data = .ok l) :
    ∀ s ∈ l, (s.x, s.y) ∈ cbCoords := by
  unfold civilStatusM at h
  obtain ⟨a, ha, h⟩ := bind_ok_inv h
  obtain ⟨b, hb, h⟩ := bind_ok_inv h
  obtain ⟨v, hv, h⟩ := bind_ok_inv h
  obtain ⟨tbl, htbl, h⟩ := bind_ok_inv h
  have he : tbl = civilStatusTbl := by
    have h2 := pySubscript_ok_inv htbl
    have h3 : assq "civil_status" CHECKBOX_MAPPINGS = some civilStatusTbl := rfl
    rw [h3] at h2
    cases h2
    rfl
  subst he
  cases h
  exact groupStamps_pos _ (by decide) _

/-- Stamps of a successful acquired-by block sit at checkbox coordinates. -/
theorem acquiredByM_pos (data : Json) (l : List Stamp) (h : acquiredByM data = .ok l) :
    ∀ s ∈ l, (s.x, s.y) ∈ cbCoords := by
  unfold acquiredByM at h
  obtain ⟨a, ha, h⟩ := bind_ok_inv h
  obtain ⟨b, hb, h⟩ := bind_ok_inv h
  obtain ⟨v, hv, h⟩ := bind_ok_inv h
  obtain ⟨tbl, htbl, h⟩ := bind_ok_inv h
  have he : tbl = acquiredByTbl := by
    have h2 := pySubscript_ok_inv htbl
    have h3 : assq "acquired_by" CHECKBOX_MAPPINGS = some acquiredByTbl := rfl
    rw [h3] at h2
    cases h2
    rfl
  subst he
  cases h
  exact groupStamps_pos _ (by decide) v

/-- Stamps of a successful foreign-citizenship block sit at checkbox
coordinates. -/
theorem foreignCitM_pos (data : Json) (l : List Stamp) (h : foreignCitM data = .ok l) :
    ∀ s ∈ l, (s.x, s.y) ∈ cbCoords := by
  unfold foreignCitM at h
  obtain ⟨a, ha, h⟩ := bind_ok_inv h
  obtain ⟨fc, hfc, h⟩ := bind_ok_inv h
  obtain ⟨acq, hacq, h⟩ := bind_ok_inv h
  split at h
  · obtain ⟨mJ, hmJ, h⟩ := bind_ok_inv h
    obtain ⟨mode, hmode, h⟩ := bind_ok_inv h
    obtain ⟨tbl, htbl, h⟩ := bind_ok_inv h
    have he : tbl = foreignCitizenshipModeTbl := by
      have h2 := pySubscript_ok_inv htbl
      have h3 : assq "foreign_citizenship_mode" CHECKBOX_MAPPINGS =
          some foreignCitizenshipModeTbl := rfl
      rw [h3] at h2
      cases h2
      rfl
    subst he
    cases h
    intro s hs
    rcases List.mem_append.mp hs with hs | hs
    · exact checkAt_pos "checkbox_foreign_citizenship_yes" (by decide) s hs
    · exact groupStamps_pos _ (by decide) mode s hs
  · cases h
    exact checkAt_pos "checkbox_foreign_citizenship_no" (by decide)

/-- Stamps of a successful foreign-military block sit at checkbox
coordinates. -/
theorem militaryM_pos (data : Json) (l : List Stamp) (h : militaryM data = .ok l) :
    ∀ s ∈ l, (s.x, s.y) ∈ cbCoords := by
  unfold militaryM at h
  obtain ⟨a, ha, h⟩ := bind_ok_inv h
  obtain ⟨fm, hfm, h⟩ := bind_ok_inv h
  obtain ⟨sv, hsv, h⟩ := bind_ok_inv h
  split at h
  · cases h; exact checkAt_pos "checkbox_military_yes" (by decide)
  · cases h; exact checkAt_pos "checkbox_military_no" (by decide)

/-- Stamps of a successful renounced block sit at checkbox coordinates. -/
theorem renouncedM_pos (data : Json) (l : List Stamp) (h : renouncedM data = .ok l) :
    ∀ s ∈ l, (s.x, s.y) ∈ cbCoords := by
  unfold renouncedM at h
  obtain ⟨a, ha, h⟩ := bind_ok_inv h
  obtain ⟨r, hr, h⟩ := bind_ok_inv h
  split at h
  · cases h; exact checkAt_pos "checkbox_renounced_yes" (by decide)
  · cases h; exact checkAt_pos "checkbox_renounced_no" (by decide)

/-- Stamps of a successful foreign-passport block sit at checkbox
coordinates. -/
theorem foreignPassM_pos (data : Json) (l : List Stamp) (h : foreignPassM data = .ok l) :
    ∀ s ∈ l, (s.x, s.y) ∈ cbCoords := by
  unfold foreignPassM at h
  obtain ⟨a, ha, h⟩ := bind_ok_inv h
  obtain ⟨fp, hfp, h⟩ := bind_ok_inv h
  obtain ⟨iss, hiss, h⟩ := bind_ok_inv h
  split at h
  · cases h; exact checkAt_pos "checkbox_foreign_passport_yes" (by decide)
  · cases h; exact checkAt_pos "checkbox_foreign_passport_no" (by decide)

/-- Stamps of a successful Philippine-passport block sit at checkbox
coordinates. -/
theorem phPassM_pos (data : Json) (l : List Stamp) (h : phPassM data = .ok l) :
    ∀ s ∈ l, (s.x, s.y) ∈ cbCoords := by
  unfold phPassM at h
  obtain ⟨a, ha, h⟩ := bind_ok_inv h
  obtain ⟨pp, hpp, h⟩ := bind_ok_inv h
  obtain ⟨iss, hiss, h⟩ := bind_ok_inv h
  split at h
  · cases h; exact checkAt_pos "checkbox_ph_passport_yes" (by decide)
  · cases h; exact checkAt_pos "checkbox_ph_passport_no" (by decide)

/-- The blocks of the checkbox pass, in source order. -/
def checkboxBranches : List (Json → Except PyErr (List Stamp)) :=
  [appCategoryM, procTypeM, sexM, civilStatusM, acquiredByM,
   foreignCitM, militaryM, renouncedM, foreignPassM, phPassM]

/-- Stamps of the scalar-field pass sit at scalar-field coordinates. -/
theorem fill_text_fields_pos (data : Json) :
    ∀ s ∈ fill_text_fields data, (s.x, s.y) ∈ txtCoords := by
  intro s hs
  unfold fill_text_fields at hs
  rw [List.mem_flatten] at hs
  obtain ⟨l, hl, hsl⟩ := hs
  rw [List.mem_map] at hl
  obtain ⟨entry, hentry, rfl⟩ := hl
  obtain ⟨p, k⟩ := entry
  rw [textEntryStamps_eq] at hsl
  cases hres : get_nested_value data p with
  | none => rw [hres] at hsl; simp at hsl
  | some v =>
    rw [hres] at hsl
    cases ht : truthy v with
    | false => simp [ht] at hsl
    | true =>
      simp only [ht, if_true] at hsl
      cases hco : assq k FIELD_COORDINATES with
      | none => rw [hco] at hsl; simp at hsl
      | some xy =>
        obtain ⟨x, y⟩ := xy
        rw [hco] at hsl
        have hsl2 : s ∈ insert_text x y (pyStr v) FONT_SIZE := hsl
        unfold insert_text at hsl2
        by_cases hcond : (pyStr v != "" && strTrim (pyStr v) != "") = true
        · rw [if_pos hcond] at hsl2
          simp at hsl2
          subst hsl2
          exact List.mem_filterMap.mpr
            ⟨k, List.mem_map.mpr ⟨(p, k), hentry, rfl⟩, hco⟩
        · rw [if_neg hcond] at hsl2
          simp at hsl2

/-- C8: the checkbox pass and the scalar-field pass write to disjoint
coordinate sets — every stamp any checkbox block can emit sits in
`cbCoords`, every scalar stamp sits in `txtCoords`, and the two sets share
no coordinate — so the two passes, and more generally any two
position-disjoint stamp batches, can be applied in either order with the
same observable content at every coordinate. -/
theorem c8_order_independence :
    (∀ (A B : List Stamp), posDisjoint A B →
      ∀ c, stampsAt c (A ++ B) = stampsAt c (B ++ A))
    ∧ (∀ f ∈ checkboxBranches, ∀ (data : Json) (l : List Stamp),
        f data = .ok l → ∀ s ∈ l, (s.x, s.y) ∈ cbCoords)
    ∧ (∀ (data : Json), ∀ s ∈ fill_text_fields data, (s.x, s.y) ∈ txtCoords)
    ∧ (∀ c ∈ cbCoords, c ∉ txtCoords)
    ∧ (∀ (data : Json) (ms : List Stamp), (∀ s ∈ ms, (s.x, s.y) ∈ cbCoords) →
        ∀ c, stampsAt c (ms ++ fill_text_fields data) =
          stampsAt c (fill_text_fields data ++ ms)) := by
  have hdisj : ∀ c ∈ cbCoords, c ∉ txtCoords := by decide
  refine ⟨stampsAt_swap, ?_, fill_text_fields_pos, hdisj, ?_⟩
  · intro f hf
    simp only [checkboxBranches, List.mem_cons, List.not_mem_nil, or_false] at hf
    rcases hf with rfl | rfl | rfl | rfl | rfl | rfl | rfl | rfl | rfl | rfl
    · exact appCategoryM_pos
    · intro data l h
      obtain ⟨e, he⟩ := procTypeM_error data
      rw [he] at h
      cases h
    · exact sexM_pos
    · exact civilStatusM_pos
    · exact acquiredByM_pos
    · exact foreignCitM_pos
    · exact militaryM_pos
    · exact renouncedM_pos
    · exact foreignPassM_pos
    · exact phPassM_pos
  · intro data ms hms c
    apply stampsAt_swap
    intro a haA b hbB
    intro hab
    have hac := hms a haA
    have hbc := fill_text_fields_pos data b hbB
    rw [hab] at hac
    exact hdisj _ hac hbc

/-- C8 witness: the swap applied to a concrete checkbox batch (the
military-no mark) against the empty record's scalar stamps, observed at
the military-no coordinate. -/
theorem c8_witness :
    (∀ s ∈ ([⟨438, 413, "X", 10⟩] : List Stamp), (s.x, s.y) ∈ cbCoords)
    ∧ stampsAt (438, 413) ([⟨438, 413, "X", 10⟩] ++ fill_text_fields (.obj [])) =
        stampsAt (438, 413) (fill_text_fields (.obj []) ++ [⟨438, 413, "X", 10⟩]) :=
  ⟨by decide,
   c8_order_independence.2.2.2.2 (.obj []) [⟨438, 413, "X", 10⟩] (by decide) (438, 413)⟩

end Passport
